import Mathlib

/-!
Verification of the Azure storage-provisioning driver of the
cluster-image-registry-operator.

The Go driver talks to the Azure provider through SDK clients.  We model
each provider call as a field of an abstract `AzureAPI` record, a function
from an abstract provider state `σ` to a response together with a new
state.  The driver functions are translated from the Go source one by one
and additionally return the list of provider operations they issued (an
`Op` trace) and, for the orchestrator entry points, the list of
status-condition updates they wrote (a `Cond` trace).

Out-of-scope collaborators (per the architecture: credential acquisition,
Kubernetes listers, the randomness source) are passed in as values:
`GetConfig` / `GetInfrastructure` results become `Except` parameters, the
random suffix of the naming strategy becomes a string parameter, and SDK
client construction (pure credential plumbing) is dropped.
-/

/-- The error shapes the driver code inspects: `autorest.DetailedError`
(carries an HTTP status code), `azcore.ResponseError` (carries a provider
error-code string), `azblob.StorageError` (carries a service-code string),
the driver's own `errDoesNotExist` wrapper, and everything else. -/
inductive Err where
  | detailed (status : Nat) (msg : String)
  | response (errorCode : String) (msg : String)
  | storageCode (serviceCode : String) (msg : String)
  | doesNotExist (msg : String)
  | generic (msg : String)
  deriving DecidableEq, Repr

def Err.message : Err → String
  | .detailed _ m => m
  | .response _ m => m
  | .storageCode _ m => m
  | .doesNotExist m => m
  | .generic m => m

/-- Condition status values (operator v1 ConditionTrue/False/Unknown). -/
inductive CStatus where
  | cTrue
  | cFalse
  | cUnknown
  deriving DecidableEq, Repr

/-- One status-condition update written through `util.UpdateCondition`:
the (status, reason, message) triple for the StorageExists condition. -/
structure Cond where
  status : CStatus
  reason : String
  message : String
  deriving DecidableEq, Repr

/-- Labels for the provider operations the driver issues, recorded in
order of issuance. -/
inductive Op where
  | checkName (name : String)
  | createAccount (name : String)
  | createPrivateEndpoint (endpointName accountName : String)
  | createPrivateDNSZone
  | createRecordSet (accountName : String)
  | createZoneGroup (endpointName : String)
  | createVNetLink
  | getKeys (accountName : String)
  | containerGet (accountName containerName : String)
  | createContainer (accountName containerName : String)
  | deleteContainer (accountName containerName : String)
  | deleteAccount (accountName : String)
  deriving DecidableEq, Repr

/-- The IPI part of the `Azure` configuration struct (plus the UPI
`AccountKey`), as loaded by `GetConfig`. -/
structure AzCfg where
  subscriptionID : String
  resourceGroup : String
  region : String
  accountKey : String
  deriving DecidableEq, Repr

/-- `ImageRegistryConfigStorageAzure` (the driver's `d.Config`). -/
structure DriverCfg where
  accountName : String
  container : String
  cloudName : String
  deriving DecidableEq, Repr

/-- One user-declared resource tag from the infrastructure status. -/
structure ResourceTag where
  key : String
  value : String
  deriving DecidableEq, Repr

/-- The slice of `configv1.Infrastructure` the driver reads. -/
structure Infra where
  infrastructureName : String
  hasAzurePlatformStatus : Bool
  platformCloudName : String
  resourceTags : List ResourceTag
  deriving DecidableEq, Repr

/-- The registry state the orchestrator mutates: the driver config
`d.Config` plus the account/container name copies kept in
`cr.Spec.Storage.Azure` / `cr.Status.Storage.Azure`, and the storage
management state in `cr.Spec.Storage.ManagementState`. -/
structure RegState where
  config : DriverCfg
  specManagementState : String
  specAzureAccount : String
  specAzureContainer : String
  statusAzureAccount : String
  statusAzureContainer : String
  deriving DecidableEq, Repr

def managementStateManaged : String := "Managed"
def managementStateUnmanaged : String := "Unmanaged"

def reasonNotConfigured : String := "StorageNotConfigured"
def reasonConfigError : String := "ConfigError"
def reasonUserManaged : String := "UserManaged"
def reasonAzureError : String := "AzureError"
def reasonContainerNotFound : String := "ContainerNotFound"
def reasonContainerExists : String := "ContainerExists"
def reasonContainerDeleted : String := "ContainerDeleted"
def reasonAccountDeleted : String := "AccountDeleted"

/-- The complement of `storageAccountInvalidCharRe`: true exactly on
`[0-9A-Za-z]` (code points 48-57, 65-90, 97-122). -/
def isStorageAccountValidChar (c : Char) : Bool :=
  (48 ≤ c.toNat && c.toNat ≤ 57) ||
  (65 ≤ c.toNat && c.toNat ≤ 90) ||
  (97 ≤ c.toNat && c.toNat ≤ 122)

/-- `storageAccountInvalidCharRe.ReplaceAllString(s, "")`: drop every
character outside `[0-9A-Za-z]`. -/
def stripInvalidChars (s : String) : String :=
  String.mk (s.data.filter isStorageAccountValidChar)

/-- ASCII lowercasing of one character (`strings.ToLower` restricted to
the ASCII range, which is all the driver's account names use). -/
def asciiToLower (c : Char) : Char :=
  if 65 ≤ c.toNat && c.toNat ≤ 90 then Char.ofNat (c.toNat + 32) else c

/-- `strings.ToLower` over the characters of a string. -/
def strToLower (s : String) : String :=
  String.mk (s.data.map asciiToLower)

/-- `generateAccountName` from the driver: prefix `"imageregistry"` plus
the stripped infrastructure name, truncated to `24-5` characters, with the
5-character random suffix appended and the result lowercased.  The random
suffix produced by `rand.String(5)` is passed in as `suffix`. -/
def generateAccountName (infrastructureName suffix : String) : String :=
  let p := "imageregistry" ++ stripInvalidChars infrastructureName
  let p := if p.length > 24 - 5 then String.mk (p.data.take (24 - 5)) else p
  strToLower (p ++ suffix)

/-- A character is a lowercase letter or a digit. -/
def isLowerAlnumChar (c : Char) : Bool :=
  (48 ≤ c.toNat && c.toNat ≤ 57) || (97 ≤ c.toNat && c.toNat ≤ 122)

theorem toNat_ofNat_of_small {n : Nat} (h : n < 55296) :
    (Char.ofNat n).toNat = n := by
  have hv : n.isValidChar := Or.inl h
  unfold Char.ofNat
  rw [dif_pos hv]
  rfl

theorem asciiToLower_lowerAlnum {c : Char}
    (h : isStorageAccountValidChar c = true) :
    isLowerAlnumChar (asciiToLower c) = true := by
  unfold isStorageAccountValidChar at h
  simp only [Bool.or_eq_true, Bool.and_eq_true, decide_eq_true_eq] at h
  unfold asciiToLower isLowerAlnumChar
  by_cases hu : 65 ≤ c.toNat ∧ c.toNat ≤ 90
  · rw [if_pos (by simp only [Bool.and_eq_true, decide_eq_true_eq]; exact hu)]
    have hofnat : (Char.ofNat (c.toNat + 32)).toNat = c.toNat + 32 :=
      toNat_ofNat_of_small (by omega)
    simp only [Bool.or_eq_true, Bool.and_eq_true, decide_eq_true_eq, hofnat]
    omega
  · rw [if_neg (by simp only [Bool.and_eq_true, decide_eq_true_eq]; exact hu)]
    simp only [Bool.or_eq_true, Bool.and_eq_true, decide_eq_true_eq]
    omega

theorem asciiToLower_of_lowerAlnum {c : Char}
    (h : isLowerAlnumChar c = true) : asciiToLower c = c := by
  unfold isLowerAlnumChar at h
  simp only [Bool.or_eq_true, Bool.and_eq_true, decide_eq_true_eq] at h
  unfold asciiToLower
  rw [if_neg]
  simp only [Bool.and_eq_true, decide_eq_true_eq, not_and]
  omega

theorem imageregistry_chars :
    ∀ c ∈ "imageregistry".data, isStorageAccountValidChar c = true := by
  decide

theorem string_data_append (s t : String) : (s ++ t).data = s.data ++ t.data := rfl

theorem string_mk_data (l : List Char) : (String.mk l).data = l := rfl

theorem string_mk_length (l : List Char) : (String.mk l).length = l.length := rfl

theorem generateAccountName_data (i s : String) :
    (generateAccountName i s).data =
      ((if ("imageregistry".data ++ i.data.filter isStorageAccountValidChar).length > 24 - 5
          then ("imageregistry".data ++ i.data.filter isStorageAccountValidChar).take (24 - 5)
          else "imageregistry".data ++ i.data.filter isStorageAccountValidChar)
        ++ s.data).map asciiToLower := by
  have hmk : "imageregistry" ++ stripInvalidChars i =
      String.mk ("imageregistry".data ++ i.data.filter isStorageAccountValidChar) := rfl
  simp only [generateAccountName, strToLower, hmk, string_mk_length, string_mk_data,
    string_data_append, apply_ite String.data]

/-- C7: for every infrastructure-identifier string, provided the random
suffix is 5 lowercase-alphanumeric characters (the output shape of
`rand.String(5)`), `generateAccountName` returns a name of length between
3 and 24 consisting only of lowercase letters and digits, and the name is
exactly the lowercasing of the truncated stripped prefix with the random
suffix appended (`generateAccountName_data`). -/
theorem generateAccountName_valid (i s : String)
    (hlen : s.length = 5)
    (hchars : ∀ c ∈ s.data, isLowerAlnumChar c = true) :
    3 ≤ (generateAccountName i s).length ∧
    (generateAccountName i s).length ≤ 24 ∧
    (∀ c ∈ (generateAccountName i s).data, isLowerAlnumChar c = true) := by
  have hdata := generateAccountName_data i s
  have hL : ∀ c ∈ "imageregistry".data ++ i.data.filter isStorageAccountValidChar,
      isStorageAccountValidChar c = true := by
    intro c hc
    rcases List.mem_append.mp hc with hc | hc
    · exact imageregistry_chars c hc
    · exact List.of_mem_filter hc
  set L := "imageregistry".data ++ i.data.filter isStorageAccountValidChar
    with hLdef
  have hL13 : 13 ≤ L.length := by
    rw [hLdef, List.length_append]
    have h13 : "imageregistry".data.length = 13 := rfl
    omega
  set T := if L.length > 24 - 5 then L.take (24 - 5) else L with hTdef
  have hT1 : 13 ≤ T.length ∧ T.length ≤ 19 := by
    rw [hTdef]
    split
    · next h =>
      rw [List.length_take]
      omega
    · next h =>
      omega
  have hTchars : ∀ c ∈ T, isStorageAccountValidChar c = true := by
    rw [hTdef]
    split
    · intro c hc
      exact hL c (List.mem_of_mem_take hc)
    · exact hL
  have hslen : s.data.length = 5 := hlen
  have hlength : (generateAccountName i s).length = T.length + s.data.length := by
    show (generateAccountName i s).data.length = _
    rw [hdata, List.length_map, List.length_append]
  refine ⟨?_, ?_, ?_⟩
  · omega
  · omega
  · intro c hc
    rw [hdata] at hc
    obtain ⟨a, ha, rfl⟩ := List.mem_map.mp hc
    rcases List.mem_append.mp ha with ha | ha
    · exact asciiToLower_lowerAlnum (hTchars a ha)
    · rw [asciiToLower_of_lowerAlnum (hchars a ha)]
      exact hchars a ha

/-- The provider boundary: one field per Azure call the driver issues.
Each call maps an abstract provider state `σ` to a response and a new
state.  `getEnvironment` models `getEnvironmentByName` (a lookup that
depends only on the cloud name) and `getPrimaryKey` models the raw
`primaryKey.get` call before the driver's `errDoesNotExist` wrapping.
SDK client construction (pure credential plumbing, out of scope per the
architecture) is omitted: a constructed client is assumed available. -/
structure AzureAPI (σ : Type) where
  getEnvironment : String → Except Err Unit
  checkNameAvailability : σ → String → (Except Err Bool) × σ
  createAccount : σ → String → String → String → List ResourceTag →
    (Except Err Unit) × σ
  createPrivateEndpoint : σ → String → String → List ResourceTag →
    (Except Err Unit) × σ
  createPrivateDNSZone : σ → List ResourceTag → (Except Err Unit) × σ
  createRecordSet : σ → String → (Except Err Unit) × σ
  createZoneGroup : σ → String → (Except Err Unit) × σ
  createVNetLink : σ → List ResourceTag → (Except Err Unit) × σ
  getPrimaryKey : σ → String → String → (Except Err String) × σ
  containerGetProps : σ → String → String → String → (Except Err Unit) × σ
  createContainer : σ → String → String → String → (Except Err Unit) × σ
  deleteContainer : σ → String → String → String → (Except Err Unit) × σ
  deleteAccount : σ → String → String → (Except Err Unit) × σ

/-- The tag set built in `assureStorageAccount`: the fixed ownership tag
keyed by the infrastructure name, followed by the user-declared resource
tags from the Azure platform status when present. -/
def accountTagSet (infra : Infra) : List ResourceTag :=
  let base := [⟨"kubernetes.io_cluster." ++ infra.infrastructureName, "owned"⟩]
  if infra.hasAzurePlatformStatus then base ++ infra.resourceTags else base

/-- `getAccountPrimaryKey`: fetch the account key and reinterpret an
`autorest.DetailedError` with HTTP status 404 as `errDoesNotExist`. -/
def getAccountPrimaryKey {σ : Type} (api : AzureAPI σ) (st : σ)
    (resourceGroup accountName : String) :
    (Except Err String) × σ × List Op :=
  match api.getPrimaryKey st resourceGroup accountName with
  | (.error e, st1) =>
    let wrapped := "failed to get keys for the storage account " ++ accountName ++
      ": " ++ e.message
    match e with
    | .detailed status _ =>
      if status == 404 then (.error (.doesNotExist wrapped), st1, [.getKeys accountName])
      else (.error (.generic wrapped), st1, [.getKeys accountName])
    | _ => (.error (.generic wrapped), st1, [.getKeys accountName])
  | (.ok key, st1) => (.ok key, st1, [.getKeys accountName])

/-- True on the `azblob.StorageError` whose service code is
`ContainerNotFound`. -/
def isContainerNotFoundErr : Err → Bool
  | .storageCode code _ => code == "ContainerNotFound"
  | _ => false

/-- `containerExists`: empty account or container name means "does not
exist" without a provider call; a `ContainerNotFound` service code from
the properties lookup means "does not exist"; any other error
propagates (wrapped); otherwise the container exists. -/
def containerExists {σ : Type} (api : AzureAPI σ) (st : σ)
    (accountName key containerName : String) :
    (Except Err Bool) × σ × List Op :=
  if accountName == "" || containerName == "" then (.ok false, st, [])
  else
    match api.containerGetProps st accountName key containerName with
    | (.error e, st1) =>
      if isContainerNotFoundErr e then
        (.ok false, st1, [.containerGet accountName containerName])
      else
        (.error (.generic ("unable to get the storage container " ++ containerName ++
          ": " ++ e.message)), st1, [.containerGet accountName containerName])
    | (.ok _, st1) => (.ok true, st1, [.containerGet accountName containerName])

/-- The network-isolation subchain run inside `assureStorageAccount` right
after a fresh account creation: private endpoint, private DNS zone, DNS
A-record, private DNS zone group, virtual-network link, aborting on the
first failure. -/
def networkChain {σ : Type} (api : AzureAPI σ) (st : σ)
    (accountName endpointName : String) (tags : List ResourceTag) :
    (Except Err Unit) × σ × List Op :=
  match api.createPrivateEndpoint st endpointName accountName tags with
  | (.error e, st1) => (.error e, st1, [.createPrivateEndpoint endpointName accountName])
  | (.ok _, st1) =>
  match api.createPrivateDNSZone st1 tags with
  | (.error e, st2) =>
    (.error e, st2, [.createPrivateEndpoint endpointName accountName, .createPrivateDNSZone])
  | (.ok _, st2) =>
  match api.createRecordSet st2 accountName with
  | (.error e, st3) =>
    (.error e, st3, [.createPrivateEndpoint endpointName accountName, .createPrivateDNSZone,
      .createRecordSet accountName])
  | (.ok _, st3) =>
  match api.createZoneGroup st3 endpointName with
  | (.error e, st4) =>
    (.error e, st4, [.createPrivateEndpoint endpointName accountName, .createPrivateDNSZone,
      .createRecordSet accountName, .createZoneGroup endpointName])
  | (.ok _, st4) =>
  match api.createVNetLink st4 tags with
  | (.error e, st5) =>
    (.error e, st5, [.createPrivateEndpoint endpointName accountName, .createPrivateDNSZone,
      .createRecordSet accountName, .createZoneGroup endpointName, .createVNetLink])
  | (.ok _, st5) =>
    (.ok (), st5, [.createPrivateEndpoint endpointName accountName, .createPrivateDNSZone,
      .createRecordSet accountName, .createZoneGroup endpointName, .createVNetLink])

/-- `assureStorageAccount`: resolve the account name (configured or
generated), probe availability, fail on an unavailable generated name,
and when the name is available create the account and run the
network-isolation subchain.  `genAcct` is the name produced by
`generateAccountName` for the account, `genPE` the one produced for the
private endpoint; each stands for one fresh random draw. -/
def assureStorageAccount {σ : Type} (api : AzureAPI σ) (st : σ)
    (cfg : AzCfg) (dcfg : DriverCfg) (infra : Infra) (genAcct genPE : String) :
    (Except Err (String × Bool)) × σ × List Op :=
  match api.getEnvironment dcfg.cloudName with
  | .error e => (.error e, st, [])
  | .ok _ =>
    let accountNameGenerated := dcfg.accountName == ""
    let accountName := if accountNameGenerated then genAcct else dcfg.accountName
    match api.checkNameAvailability st accountName with
    | (.error e, st1) => (.error e, st1, [.checkName accountName])
    | (.ok nameAvailable, st1) =>
      if accountNameGenerated && !nameAvailable then
        (.error (.generic "create storage account failed, name not available"), st1,
          [.checkName accountName])
      else
        let tagset := accountTagSet infra
        if nameAvailable then
          match api.createAccount st1 cfg.resourceGroup accountName cfg.region tagset with
          | (.error e, st2) =>
            (.error e, st2, [.checkName accountName, .createAccount accountName])
          | (.ok _, st2) =>
            match networkChain api st2 accountName genPE tagset with
            | (.error e, st3, chainOps) =>
              (.error e, st3, [.checkName accountName, .createAccount accountName] ++ chainOps)
            | (.ok _, st3, chainOps) =>
              (.ok (accountName, true), st3,
                [.checkName accountName, .createAccount accountName] ++ chainOps)
        else
          (.ok (accountName, false), st1, [.checkName accountName])

/-- `assureContainer`: fetch the account key, then either create a
container under a generated name (when none is configured) or probe the
configured one and create it only when absent.  `genContainer` is the
result of `util.GenerateStorageName` (a lister-backed generator, out of
scope, passed in as a value). -/
def assureContainer {σ : Type} (api : AzureAPI σ) (st : σ)
    (cfg : AzCfg) (dcfg : DriverCfg) (genContainer : Except Err String) :
    (Except Err (String × Bool)) × σ × List Op :=
  match api.getEnvironment dcfg.cloudName with
  | .error e => (.error e, st, [])
  | .ok _ =>
  match getAccountPrimaryKey api st cfg.resourceGroup dcfg.accountName with
  | (.error e, st1, ops1) => (.error e, st1, ops1)
  | (.ok key, st1, ops1) =>
    if dcfg.container == "" then
      match genContainer with
      | .error e => (.error e, st1, ops1)
      | .ok containerName =>
        match api.createContainer st1 dcfg.accountName key containerName with
        | (.error e, st2) =>
          (.error e, st2, ops1 ++ [.createContainer dcfg.accountName containerName])
        | (.ok _, st2) =>
          (.ok (containerName, true), st2,
            ops1 ++ [.createContainer dcfg.accountName containerName])
    else
      match containerExists api st1 dcfg.accountName key dcfg.container with
      | (.error e, st2, ops2) => (.error e, st2, ops1 ++ ops2)
      | (.ok true, st2, ops2) => (.ok (dcfg.container, false), st2, ops1 ++ ops2)
      | (.ok false, st2, ops2) =>
        match api.createContainer st2 dcfg.accountName key dcfg.container with
        | (.error e, st3) =>
          (.error e, st3, ops1 ++ ops2 ++ [.createContainer dcfg.accountName dcfg.container])
        | (.ok _, st3) =>
          (.ok (dcfg.container, true), st3,
            ops1 ++ ops2 ++ [.createContainer dcfg.accountName dcfg.container])

/-- `getKey`: the externally-provided account key when present, otherwise
the account's primary key from the provider. -/
def getKey {σ : Type} (api : AzureAPI σ) (st : σ) (cfg : AzCfg) (dcfg : DriverCfg) :
    (Except Err String) × σ × List Op :=
  if cfg.accountKey != "" then (.ok cfg.accountKey, st, [])
  else getAccountPrimaryKey api st cfg.resourceGroup dcfg.accountName

/-- `processUPI`: validate a user-managed (account-key-provided)
configuration, defaulting the management state to Unmanaged only when it
is unset, and mirror the driver config into the status record. -/
def processUPI (reg : RegState) : RegState × List Cond :=
  if reg.config.accountName == "" then
    (reg, [⟨.cFalse, reasonNotConfigured,
      "Storage account key is provided, but account name is not specified"⟩])
  else if reg.config.container == "" then
    (reg, [⟨.cFalse, reasonNotConfigured,
      "Storage account is provided, but container is not specified"⟩])
  else
    let reg1 := if reg.specManagementState == "" then
      { reg with specManagementState := managementStateUnmanaged } else reg
    let reg2 := { reg1 with
      statusAzureAccount := reg1.config.accountName,
      statusAzureContainer := reg1.config.container }
    (reg2, [⟨.cTrue, reasonUserManaged, "Storage is managed by the user"⟩])

/-- The outcome of one orchestrator entry-point call: the returned error
(if any), the final provider state, the final registry state, the issued
provider operations and the written condition updates, in order. -/
structure Outcome (σ : Type) where
  err : Option Err
  st : σ
  reg : RegState
  ops : List Op
  conds : List Cond

/-- `CreateStorage`: user-managed short-circuit, cloud-name defaulting
from the platform status, `assureStorageAccount` then `assureContainer`
with the resolved names persisted back, management-state defaulting, and
a single success condition.  `cfgRes` / `infraRes` are the `GetConfig` /
`GetInfrastructure` results (lister reads, out of scope), `genAcct`,
`genPE` and `genContainer` the name-generator draws. -/
def CreateStorage {σ : Type} (api : AzureAPI σ) (st : σ)
    (cfgRes : Except Err AzCfg) (infraRes : Except Err Infra)
    (genAcct genPE : String) (genContainer : Except Err String)
    (reg : RegState) : Outcome σ :=
  match cfgRes with
  | .error e =>
    ⟨some e, st, reg, [], [⟨.cUnknown, reasonConfigError,
      "Unable to get configuration: " ++ e.message⟩]⟩
  | .ok cfg =>
    if cfg.accountKey != "" then
      let (reg1, conds) := processUPI reg
      ⟨none, st, reg1, [], conds⟩
    else
      match infraRes with
      | .error e =>
        ⟨some e, st, reg, [], [⟨.cUnknown, reasonConfigError,
          "Unable to get infrastructure: " ++ e.message⟩]⟩
      | .ok infra =>
        let reg1 := if reg.config.cloudName == "" && reg.config.accountName == "" &&
            infra.hasAzurePlatformStatus then
          { reg with config := { reg.config with cloudName := infra.platformCloudName } }
        else reg
        match assureStorageAccount api st cfg reg1.config infra genAcct genPE with
        | (.error e, st1, ops1) =>
          ⟨some e, st1, reg1, ops1, [⟨.cUnknown, reasonAzureError,
            "Unable to process storage account: " ++ e.message⟩]⟩
        | (.ok (storageAccountName, storageAccountCreated), st1, ops1) =>
          let reg2 := { reg1 with
            config := { reg1.config with accountName := storageAccountName } }
          match assureContainer api st1 cfg reg2.config genContainer with
          | (.error e, st2, ops2) =>
            ⟨some e, st2, reg2, ops1 ++ ops2, [⟨.cUnknown, reasonAzureError,
              "Unable to process storage container: " ++ e.message⟩]⟩
          | (.ok (containerName, containerCreated), st2, ops2) =>
            let reg3 := { reg2 with
              config := { reg2.config with container := containerName } }
            let reg4 := if reg3.specManagementState == "" then
              if storageAccountCreated || containerCreated then
                { reg3 with specManagementState := managementStateManaged }
              else
                { reg3 with specManagementState := managementStateUnmanaged }
            else reg3
            let reg5 := { reg4 with
              specAzureAccount := reg4.config.accountName,
              specAzureContainer := reg4.config.container,
              statusAzureAccount := reg4.config.accountName,
              statusAzureContainer := reg4.config.container }
            ⟨none, st2, reg5, ops1 ++ ops2, [⟨.cTrue, reasonContainerExists,
              "Storage container exists"⟩]⟩

/-- `RemoveStorage`: no-op unless the storage is Managed and an account
name is recorded; delete the container (clearing its recorded names) when
one is recorded, treating a not-found key fetch as "already deleted";
then delete the account and clear its recorded names.  Returns the
`retry` flag and the error exactly as the Go function does. -/
def RemoveStorage {σ : Type} (api : AzureAPI σ) (st : σ)
    (cfgRes : Except Err AzCfg) (reg : RegState) :
    (Bool × Option Err) × σ × RegState × List Op × List Cond :=
  if reg.specManagementState != managementStateManaged then
    ((false, none), st, reg, [], [])
  else if reg.config.accountName == "" then
    ((false, none), st, reg, [],
      [⟨.cFalse, reasonNotConfigured, "Storage is not configured"⟩])
  else
    match cfgRes with
    | .error e =>
      ((false, some e), st, reg, [], [⟨.cUnknown, reasonConfigError,
        "Unable to get configuration: " ++ e.message⟩])
    | .ok cfg =>
      match api.getEnvironment reg.config.cloudName with
      | .error e =>
        ((false, some e), st, reg, [], [⟨.cUnknown, reasonConfigError,
          "Unable to get cloud environment: " ++ e.message⟩])
      | .ok _ =>
        let afterContainer :
            (Option ((Bool × Option Err) × σ × RegState × List Op × List Cond)) ×
              σ × RegState × List Op × List Cond :=
          if reg.config.container != "" then
            match getAccountPrimaryKey api st cfg.resourceGroup reg.config.accountName with
            | (.error (.doesNotExist m), st1, ops1) =>
              let reg1 := { reg with
                config := { reg.config with accountName := "" },
                specAzureAccount := "",
                statusAzureAccount := "" }
              (some ((false, none), st1, reg1, ops1,
                [⟨.cFalse, reasonContainerNotFound,
                  "Container has been already deleted: " ++ m⟩]), st1, reg1, ops1, [])
            | (.error e, st1, ops1) =>
              (some ((false, some e), st1, reg, ops1,
                [⟨.cUnknown, reasonAzureError,
                  "Unable to get account primary keys: " ++ e.message⟩]), st1, reg, ops1, [])
            | (.ok key, st1, ops1) =>
              match api.deleteContainer st1 reg.config.accountName key reg.config.container with
              | (.error e, st2) =>
                (some ((false, some e), st2, reg,
                  ops1 ++ [.deleteContainer reg.config.accountName reg.config.container],
                  [⟨.cUnknown, reasonAzureError,
                    "Unable to delete storage container: " ++ e.message⟩]), st2, reg,
                  ops1 ++ [.deleteContainer reg.config.accountName reg.config.container], [])
              | (.ok _, st2) =>
                let reg1 := { reg with
                  config := { reg.config with container := "" },
                  specAzureContainer := "",
                  statusAzureContainer := "" }
                (none, st2, reg1,
                  ops1 ++ [.deleteContainer reg.config.accountName reg.config.container],
                  [⟨.cFalse, reasonContainerDeleted, "Storage container has been deleted"⟩])
          else
            (none, st, reg, [], [])
        match afterContainer with
        | (some result, _, _, _, _) => result
        | (none, st1, reg1, ops1, conds1) =>
          match api.deleteAccount st1 cfg.resourceGroup reg1.config.accountName with
          | (.error e, st2) =>
            ((false, some e), st2, reg1, ops1 ++ [.deleteAccount reg1.config.accountName],
              conds1 ++ [⟨.cFalse, reasonAzureError,
                "Unable to delete storage account: " ++ e.message⟩])
          | (.ok _, st2) =>
            let reg2 := { reg1 with
              config := { reg1.config with accountName := "" },
              specAzureAccount := "",
              statusAzureAccount := "" }
            ((false, none), st2, reg2, ops1 ++ [.deleteAccount reg1.config.accountName],
              conds1 ++ [⟨.cFalse, reasonAccountDeleted, "Storage account has been deleted"⟩])

/-- `StorageExists`: report NotConfigured on missing names, then probe the
configured container with the resolved key, mapping every outcome to one
condition update. -/
def StorageExists {σ : Type} (api : AzureAPI σ) (st : σ)
    (cfgRes : Except Err AzCfg) (reg : RegState) :
    (Except Err Bool) × σ × RegState × List Op × List Cond :=
  if reg.config.accountName == "" || reg.config.container == "" then
    (.ok false, st, reg, [],
      [⟨.cFalse, reasonNotConfigured, "Storage is not configured"⟩])
  else
    match cfgRes with
    | .error e =>
      (.error e, st, reg, [], [⟨.cUnknown, reasonConfigError,
        "Unable to get configuration: " ++ e.message⟩])
    | .ok cfg =>
      match api.getEnvironment reg.config.cloudName with
      | .error e =>
        (.error e, st, reg, [], [⟨.cUnknown, reasonConfigError,
          "Unable to get cloud environment: " ++ e.message⟩])
      | .ok _ =>
        match getKey api st cfg reg.config with
        | (.error e, st1, ops1) =>
          (.error e, st1, reg, ops1, [⟨.cUnknown, reasonAzureError,
            "Unable to get storage account key: " ++ e.message⟩])
        | (.ok key, st1, ops1) =>
          match containerExists api st1 reg.config.accountName key reg.config.container with
          | (.error e, st2, ops2) =>
            (.error e, st2, reg, ops1 ++ ops2,
              [⟨.cUnknown, reasonAzureError, e.message⟩])
          | (.ok false, st2, ops2) =>
            (.ok false, st2, reg, ops1 ++ ops2,
              [⟨.cFalse, reasonContainerNotFound,
                "Could not find storage container " ++ reg.config.container⟩])
          | (.ok true, st2, ops2) =>
            (.ok true, st2, reg, ops1 ++ ops2,
              [⟨.cTrue, reasonContainerExists, "Storage container exists"⟩])

/-- True on the `azcore.ResponseError` whose provider error code is
`Conflict` (the Azure API does not return a 409 here, so the code matches
the string). -/
def isConflictErr : Err → Bool
  | .response code _ => code == "Conflict"
  | _ => false

/-- `ConfigurePrivateDNS` from the `azureclient` package: create the
private DNS zone, the A-record set, the private DNS zone group, then the
virtual-network link, swallowing a `Conflict` response at the link step
only.  Each step's provider response is passed in as its `Except`
outcome. -/
def ConfigurePrivateDNS (zoneRes recordRes groupRes linkRes : Except Err Unit) :
    Except Err Unit :=
  match zoneRes with
  | .error e => .error e
  | .ok _ =>
  match recordRes with
  | .error e => .error e
  | .ok _ =>
  match groupRes with
  | .error e => .error e
  | .ok _ =>
  match linkRes with
  | .error e => if !isConflictErr e then .error e else .ok ()
  | .ok _ => .ok ()

/-- C5: a `Conflict`-coded provider response at the virtual-network-link
step is swallowed (`ConfigurePrivateDNS` returns no error); any other
error at the link step, and any error at the zone, record-set or
zone-group steps, is returned to the caller. -/
theorem configurePrivateDNS_conflict_only
    (zoneRes recordRes groupRes linkRes : Except Err Unit) :
    (∀ m, zoneRes = .ok () → recordRes = .ok () → groupRes = .ok () →
      linkRes = .error (.response "Conflict" m) →
      ConfigurePrivateDNS zoneRes recordRes groupRes linkRes = .ok ()) ∧
    (∀ e, zoneRes = .ok () → recordRes = .ok () → groupRes = .ok () →
      linkRes = .error e → isConflictErr e = false →
      ConfigurePrivateDNS zoneRes recordRes groupRes linkRes = .error e) ∧
    (∀ e, zoneRes = .error e →
      ConfigurePrivateDNS zoneRes recordRes groupRes linkRes = .error e) ∧
    (∀ e, zoneRes = .ok () → recordRes = .error e →
      ConfigurePrivateDNS zoneRes recordRes groupRes linkRes = .error e) ∧
    (∀ e, zoneRes = .ok () → recordRes = .ok () → groupRes = .error e →
      ConfigurePrivateDNS zoneRes recordRes groupRes linkRes = .error e) := by
  refine ⟨?_, ?_, ?_, ?_, ?_⟩
  · intro m hz hr hg hl
    subst hz; subst hr; subst hg; subst hl
    simp [ConfigurePrivateDNS, isConflictErr]
  · intro e hz hr hg hl hc
    subst hz; subst hr; subst hg; subst hl
    simp [ConfigurePrivateDNS, hc]
  · intro e hz
    subst hz
    simp [ConfigurePrivateDNS]
  · intro e hz hr
    subst hz; subst hr
    simp [ConfigurePrivateDNS]
  · intro e hz hr hg
    subst hz; subst hr; subst hg
    simp [ConfigurePrivateDNS]

theorem configurePrivateDNS_conflict_only_witness :
    ConfigurePrivateDNS (.ok ()) (.ok ()) (.ok ())
      (.error (.response "Conflict" "existing link")) = .ok () :=
  (configurePrivateDNS_conflict_only (.ok ()) (.ok ()) (.ok ())
    (.error (.response "Conflict" "existing link"))).1
    "existing link" rfl rfl rfl rfl

/-- C1: when the availability probe reports the resolved account name
unavailable, `assureStorageAccount` succeeds with `created = false` and
issues no further provider operation (in particular no account creation)
if the name was user-supplied, and fails with an error if the name was
generated by the naming strategy. -/
theorem assureStorageAccount_unavailable {σ : Type} (api : AzureAPI σ) (st : σ)
    (cfg : AzCfg) (dcfg : DriverCfg) (infra : Infra) (genAcct genPE : String)
    (henv : api.getEnvironment dcfg.cloudName = .ok ()) :
    (∀ st', dcfg.accountName ≠ "" →
      api.checkNameAvailability st dcfg.accountName = (.ok false, st') →
      assureStorageAccount api st cfg dcfg infra genAcct genPE =
        (.ok (dcfg.accountName, false), st', [.checkName dcfg.accountName])) ∧
    (∀ st', dcfg.accountName = "" →
      api.checkNameAvailability st genAcct = (.ok false, st') →
      assureStorageAccount api st cfg dcfg infra genAcct genPE =
        (.error (.generic "create storage account failed, name not available"), st',
          [.checkName genAcct])) := by
  constructor
  · intro st' hn hprobe
    have hb : (dcfg.accountName == "") = false := by
      simpa using hn
    simp [assureStorageAccount, henv, hb, hprobe]
  · intro st' hn hprobe
    have hb : (dcfg.accountName == "") = true := by
      simpa using hn
    simp [assureStorageAccount, henv, hb, hprobe]

/-- A provider in which every call succeeds, over a trivial state. -/
def okAPI : AzureAPI Unit where
  getEnvironment := fun _ => .ok ()
  checkNameAvailability := fun st _ => (.ok true, st)
  createAccount := fun st _ _ _ _ => (.ok (), st)
  createPrivateEndpoint := fun st _ _ _ => (.ok (), st)
  createPrivateDNSZone := fun st _ => (.ok (), st)
  createRecordSet := fun st _ => (.ok (), st)
  createZoneGroup := fun st _ => (.ok (), st)
  createVNetLink := fun st _ => (.ok (), st)
  getPrimaryKey := fun st _ _ => (.ok "key1", st)
  containerGetProps := fun st _ _ _ => (.ok (), st)
  createContainer := fun st _ _ _ => (.ok (), st)
  deleteContainer := fun st _ _ _ => (.ok (), st)
  deleteAccount := fun st _ _ => (.ok (), st)

/-- Like `okAPI` but the name-availability probe reports every name
unavailable. -/
def unavailAPI : AzureAPI Unit :=
  { okAPI with checkNameAvailability := fun st _ => (.ok false, st) }

def cfgA : AzCfg := ⟨"sub1", "rg1", "region1", ""⟩
def dcfgUser : DriverCfg := ⟨"acct1", "c1", ""⟩
def infraA : Infra := ⟨"infra1", false, "", []⟩

theorem assureStorageAccount_unavailable_witness :
    dcfgUser.accountName ≠ "" ∧
    assureStorageAccount unavailAPI () cfgA dcfgUser infraA "gen1" "pe1" =
      (.ok ("acct1", false), (), [.checkName "acct1"]) :=
  ⟨by decide,
    (assureStorageAccount_unavailable unavailAPI () cfgA dcfgUser infraA "gen1" "pe1"
      rfl).1 () (by decide) rfl⟩

/-- The operations belonging to the network-isolation subchain. -/
def Op.isChainOp : Op → Bool
  | .createPrivateEndpoint _ _ => true
  | .createPrivateDNSZone => true
  | .createRecordSet _ => true
  | .createZoneGroup _ => true
  | .createVNetLink => true
  | _ => false

/-- The five subchain operations in their fixed order. -/
def chainOpList (accountName endpointName : String) : List Op :=
  [.createPrivateEndpoint endpointName accountName, .createPrivateDNSZone,
   .createRecordSet accountName, .createZoneGroup endpointName, .createVNetLink]

theorem chainOpList_all_chain (accountName endpointName : String) :
    ∀ a ∈ chainOpList accountName endpointName, Op.isChainOp a = true := by
  intro a ha
  simp only [chainOpList, List.mem_cons, List.not_mem_nil, or_false] at ha
  rcases ha with rfl | rfl | rfl | rfl | rfl <;> rfl

theorem networkChain_ops {σ : Type} (api : AzureAPI σ) (st : σ)
    (accountName endpointName : String) (tags : List ResourceTag) :
    ∃ k, 1 ≤ k ∧
      (networkChain api st accountName endpointName tags).2.2 =
        (chainOpList accountName endpointName).take k ∧
      ((networkChain api st accountName endpointName tags).1 = .ok () →
        (networkChain api st accountName endpointName tags).2.2 =
          chainOpList accountName endpointName) := by
  unfold networkChain
  rcases h1 : api.createPrivateEndpoint st endpointName accountName tags with ⟨r1, st1⟩
  cases r1 with
  | error e => exact ⟨1, by omega, by simp [h1, chainOpList], by simp [h1]⟩
  | ok u =>
    rcases h2 : api.createPrivateDNSZone st1 tags with ⟨r2, st2⟩
    cases r2 with
    | error e => exact ⟨2, by omega, by simp [h1, h2, chainOpList], by simp [h1, h2]⟩
    | ok u =>
      rcases h3 : api.createRecordSet st2 accountName with ⟨r3, st3⟩
      cases r3 with
      | error e => exact ⟨3, by omega, by simp [h1, h2, h3, chainOpList], by simp [h1, h2, h3]⟩
      | ok u =>
        rcases h4 : api.createZoneGroup st3 endpointName with ⟨r4, st4⟩
        cases r4 with
        | error e =>
          exact ⟨4, by omega, by simp [h1, h2, h3, h4, chainOpList], by simp [h1, h2, h3, h4]⟩
        | ok u =>
          rcases h5 : api.createVNetLink st4 tags with ⟨r5, st5⟩
          cases r5 with
          | error e =>
            exact ⟨5, by omega, by simp [h1, h2, h3, h4, h5, chainOpList],
              by simp [h1, h2, h3, h4, h5]⟩
          | ok u =>
            exact ⟨5, by omega, by simp [h1, h2, h3, h4, h5, chainOpList],
              by simp [h1, h2, h3, h4, h5, chainOpList]⟩

/-- C4: the network-isolation subchain runs exactly when the availability
probe reported the resolved name available and the fresh account creation
succeeded; when it runs, its operations are issued as a prefix of the
fixed order endpoint, zone, record, zone group, vnet link (the full list
when `assureStorageAccount` succeeds); when the probe reports the name
unavailable (or fails, or the account creation fails), no subchain
operation is issued. -/
theorem assureStorageAccount_chain_order {σ : Type} (api : AzureAPI σ) (st : σ)
    (cfg : AzCfg) (dcfg : DriverCfg) (infra : Infra) (genAcct genPE : String)
    (henv : api.getEnvironment dcfg.cloudName = .ok ())
    (name : String)
    (hname : name = if dcfg.accountName == "" then genAcct else dcfg.accountName) :
    (∀ st', api.checkNameAvailability st name = (.ok false, st') →
      ((assureStorageAccount api st cfg dcfg infra genAcct genPE).2.2).filter
        Op.isChainOp = []) ∧
    (∀ e st', api.checkNameAvailability st name = (.error e, st') →
      ((assureStorageAccount api st cfg dcfg infra genAcct genPE).2.2).filter
        Op.isChainOp = []) ∧
    (∀ st1 e st2, api.checkNameAvailability st name = (.ok true, st1) →
      api.createAccount st1 cfg.resourceGroup name cfg.region (accountTagSet infra) =
        (.error e, st2) →
      ((assureStorageAccount api st cfg dcfg infra genAcct genPE).2.2).filter
        Op.isChainOp = []) ∧
    (∀ st1 st2 u, api.checkNameAvailability st name = (.ok true, st1) →
      api.createAccount st1 cfg.resourceGroup name cfg.region (accountTagSet infra) =
        (.ok u, st2) →
      (∃ k, 1 ≤ k ∧
        ((assureStorageAccount api st cfg dcfg infra genAcct genPE).2.2).filter
          Op.isChainOp = (chainOpList name genPE).take k) ∧
      (∀ r, (assureStorageAccount api st cfg dcfg infra genAcct genPE).1 = .ok r →
        ((assureStorageAccount api st cfg dcfg infra genAcct genPE).2.2).filter
          Op.isChainOp = chainOpList name genPE)) := by
  have hpre : ∀ (l : List Op), (∀ a ∈ l, Op.isChainOp a = true) →
      ([Op.checkName name, Op.createAccount name] ++ l).filter Op.isChainOp = l := by
    intro l hl
    rw [List.filter_append, List.filter_eq_self.mpr hl]
    rfl
  refine ⟨?_, ?_, ?_, ?_⟩
  · intro st' hprobe
    cases hb : (dcfg.accountName == "") with
    | true =>
      have : name = genAcct := by rw [hname, hb]; rfl
      subst this
      simp [assureStorageAccount, henv, hb, hprobe, Op.isChainOp]
    | false =>
      have : name = dcfg.accountName := by rw [hname, hb]; rfl
      subst this
      simp [assureStorageAccount, henv, hb, hprobe, Op.isChainOp]
  · intro e st' hprobe
    cases hb : (dcfg.accountName == "") with
    | true =>
      have : name = genAcct := by rw [hname, hb]; rfl
      subst this
      simp [assureStorageAccount, henv, hb, hprobe, Op.isChainOp]
    | false =>
      have : name = dcfg.accountName := by rw [hname, hb]; rfl
      subst this
      simp [assureStorageAccount, henv, hb, hprobe, Op.isChainOp]
  · intro st1 e st2 hprobe hcreate
    cases hb : (dcfg.accountName == "") with
    | true =>
      have : name = genAcct := by rw [hname, hb]; rfl
      subst this
      simp [assureStorageAccount, henv, hb, hprobe, hcreate, Op.isChainOp]
    | false =>
      have : name = dcfg.accountName := by rw [hname, hb]; rfl
      subst this
      simp [assureStorageAccount, henv, hb, hprobe, hcreate, Op.isChainOp]
  · intro st1 st2 u hprobe hcreate
    obtain ⟨k, hk1, hops, hfull⟩ :=
      networkChain_ops api st2 name genPE (accountTagSet infra)
    rcases hnc : networkChain api st2 name genPE (accountTagSet infra) with ⟨res, st3, cops⟩
    rw [hnc] at hops hfull
    simp only at hops hfull
    have hcops : ∀ a ∈ cops, Op.isChainOp a = true := by
      intro a ha
      rw [hops] at ha
      exact chainOpList_all_chain name genPE a (List.mem_of_mem_take ha)
    have hassure : assureStorageAccount api st cfg dcfg infra genAcct genPE =
        (res.map (fun _ => (name, true)), st3,
          [Op.checkName name, Op.createAccount name] ++ cops) := by
      cases hb : (dcfg.accountName == "") with
      | true =>
        have : name = genAcct := by rw [hname, hb]; rfl
        subst this
        cases res with
        | error e => simp [assureStorageAccount, henv, hb, hprobe, hcreate, hnc, Except.map]
        | ok v => simp [assureStorageAccount, henv, hb, hprobe, hcreate, hnc, Except.map]
      | false =>
        have : name = dcfg.accountName := by rw [hname, hb]; rfl
        subst this
        cases res with
        | error e => simp [assureStorageAccount, henv, hb, hprobe, hcreate, hnc, Except.map]
        | ok v => simp [assureStorageAccount, henv, hb, hprobe, hcreate, hnc, Except.map]
    rw [hassure]
    constructor
    · exact ⟨k, hk1, (hpre cops hcops).trans hops⟩
    · intro r hr
      cases res with
      | error e => simp [Except.map] at hr
      | ok v =>
        have hc5 : cops = chainOpList name genPE := hfull rfl
        subst hc5
        exact hpre _ (chainOpList_all_chain name genPE)

theorem assureStorageAccount_chain_order_witness :
    (∃ k, 1 ≤ k ∧
      ((assureStorageAccount okAPI () cfgA dcfgUser infraA "gen1" "pe1").2.2).filter
        Op.isChainOp = (chainOpList "acct1" "pe1").take k) ∧
    (∀ r, (assureStorageAccount okAPI () cfgA dcfgUser infraA "gen1" "pe1").1 = .ok r →
      ((assureStorageAccount okAPI () cfgA dcfgUser infraA "gen1" "pe1").2.2).filter
        Op.isChainOp = chainOpList "acct1" "pe1") :=
  (assureStorageAccount_chain_order okAPI () cfgA dcfgUser infraA "gen1" "pe1" rfl
    "acct1" (by decide)).2.2.2 () () () rfl rfl

/-- C6: with a non-empty externally-provided account key in the resolved
configuration, `CreateStorage` issues no provider operation and returns no
error; it reports (False, NotConfigured) when the configured account or
container name is empty, and otherwise reports (True, UserManaged) and
sets the management state to Unmanaged exactly when it was previously
unset. -/
theorem createStorage_userManaged {σ : Type} (api : AzureAPI σ) (st : σ)
    (cfg : AzCfg) (infraRes : Except Err Infra) (genAcct genPE : String)
    (genContainer : Except Err String) (reg : RegState)
    (hkey : cfg.accountKey ≠ "") :
    (CreateStorage api st (.ok cfg) infraRes genAcct genPE genContainer reg).err = none ∧
    (CreateStorage api st (.ok cfg) infraRes genAcct genPE genContainer reg).ops = [] ∧
    (CreateStorage api st (.ok cfg) infraRes genAcct genPE genContainer reg).st = st ∧
    ((reg.config.accountName = "" ∨ reg.config.container = "") →
      (∃ m, (CreateStorage api st (.ok cfg) infraRes genAcct genPE genContainer reg).conds =
        [⟨.cFalse, reasonNotConfigured, m⟩]) ∧
      (CreateStorage api st (.ok cfg) infraRes genAcct genPE genContainer reg).reg = reg) ∧
    (reg.config.accountName ≠ "" → reg.config.container ≠ "" →
      (CreateStorage api st (.ok cfg) infraRes genAcct genPE genContainer reg).conds =
        [⟨.cTrue, reasonUserManaged, "Storage is managed by the user"⟩] ∧
      (CreateStorage api st (.ok cfg) infraRes genAcct genPE genContainer reg).reg.specManagementState =
        (if reg.specManagementState = "" then managementStateUnmanaged
         else reg.specManagementState) ∧
      (CreateStorage api st (.ok cfg) infraRes genAcct genPE genContainer reg).reg.config =
        reg.config) := by
  have hk : (cfg.accountKey != "") = true := by simpa using hkey
  by_cases ha : reg.config.accountName = ""
  · have hab : (reg.config.accountName == "") = true := by simpa using ha
    refine ⟨?_, ?_, ?_, ?_, ?_⟩ <;>
      simp [CreateStorage, processUPI, hk, hab, ha]
  · have hab : (reg.config.accountName == "") = false := by simpa using ha
    by_cases hc : reg.config.container = ""
    · have hcb : (reg.config.container == "") = true := by simpa using hc
      refine ⟨?_, ?_, ?_, ?_, ?_⟩ <;>
        simp [CreateStorage, processUPI, hk, hab, hcb, ha, hc]
    · have hcb : (reg.config.container == "") = false := by simpa using hc
      by_cases hm : reg.specManagementState = ""
      · have hmb : (reg.specManagementState == "") = true := by simpa using hm
        refine ⟨?_, ?_, ?_, ?_, ?_⟩ <;>
          simp [CreateStorage, processUPI, hk, hab, hcb, hmb, ha, hc, hm]
      · have hmb : (reg.specManagementState == "") = false := by simpa using hm
        refine ⟨?_, ?_, ?_, ?_, ?_⟩ <;>
          simp [CreateStorage, processUPI, hk, hab, hcb, hmb, ha, hc, hm]

def cfgUPI : AzCfg := ⟨"sub1", "rg1", "region1", "key-from-user"⟩

def regEmptyMS : RegState := ⟨⟨"acct1", "c1", ""⟩, "", "", "", "", ""⟩

theorem createStorage_userManaged_witness :
    cfgUPI.accountKey ≠ "" ∧
    ((CreateStorage okAPI () (.ok cfgUPI) (.ok infraA) "gen1" "pe1" (.ok "genc")
        regEmptyMS).err = none ∧
      (CreateStorage okAPI () (.ok cfgUPI) (.ok infraA) "gen1" "pe1" (.ok "genc")
        regEmptyMS).ops = []) :=
  ⟨by decide,
    ((createStorage_userManaged okAPI () cfgUPI (.ok infraA) "gen1" "pe1" (.ok "genc")
      regEmptyMS (by decide)).1),
    ((createStorage_userManaged okAPI () cfgUPI (.ok infraA) "gen1" "pe1" (.ok "genc")
      regEmptyMS (by decide)).2.1)⟩

/-- C9: `RemoveStorage` is a no-op returning `(retry = false, no error)`
whenever the management state is not Managed or no account name is
recorded: it issues no provider operation (in particular no delete) and
leaves the registry record, including the recorded names, unchanged. -/
theorem removeStorage_noop {σ : Type} (api : AzureAPI σ) (st : σ)
    (cfgRes : Except Err AzCfg) (reg : RegState)
    (h : reg.specManagementState ≠ managementStateManaged ∨ reg.config.accountName = "") :
    (RemoveStorage api st cfgRes reg).1 = (false, none) ∧
    (RemoveStorage api st cfgRes reg).2.1 = st ∧
    (RemoveStorage api st cfgRes reg).2.2.1 = reg ∧
    (RemoveStorage api st cfgRes reg).2.2.2.1 = [] := by
  by_cases hm : reg.specManagementState = managementStateManaged
  · have ha : reg.config.accountName = "" := by tauto
    have hmb : (reg.specManagementState != managementStateManaged) = false := by
      simpa using hm
    have hab : (reg.config.accountName == "") = true := by simpa using ha
    refine ⟨?_, ?_, ?_, ?_⟩ <;> simp [RemoveStorage, hmb, hab]
  · have hmb : (reg.specManagementState != managementStateManaged) = true := by
      simpa using hm
    refine ⟨?_, ?_, ?_, ?_⟩ <;> simp [RemoveStorage, hmb]

def regUnmanaged : RegState := ⟨⟨"acct1", "c1", ""⟩, "Unmanaged", "acct1", "c1", "acct1", "c1"⟩

theorem removeStorage_noop_witness :
    (regUnmanaged.specManagementState ≠ managementStateManaged ∨
      regUnmanaged.config.accountName = "") ∧
    (RemoveStorage okAPI () (.ok cfgA) regUnmanaged).1 = (false, none) ∧
    (RemoveStorage okAPI () (.ok cfgA) regUnmanaged).2.2.1 = regUnmanaged :=
  ⟨Or.inl (by decide),
    (removeStorage_noop okAPI () (.ok cfgA) regUnmanaged (Or.inl (by decide))).1,
    (removeStorage_noop okAPI () (.ok cfgA) regUnmanaged (Or.inl (by decide))).2.2.1⟩

/-- The registry state after the account-name fields are cleared. -/
def clearAccountFields (reg : RegState) : RegState :=
  { reg with
    config := { reg.config with accountName := "" },
    specAzureAccount := "",
    statusAzureAccount := "" }

/-- The registry state after the container-name fields are cleared. -/
def clearContainerFields (reg : RegState) : RegState :=
  { reg with
    config := { reg.config with container := "" },
    specAzureContainer := "",
    statusAzureContainer := "" }

/-- Like `okAPI` but the key fetch fails with an HTTP 404
`autorest.DetailedError`. -/
def keyNotFoundAPI : AzureAPI Unit :=
  { okAPI with getPrimaryKey := fun st _ _ =>
      (.error (.detailed 404 "storage account not found"), st) }

def regManaged : RegState := ⟨⟨"acct1", "c1", ""⟩, "Managed", "acct1", "c1", "acct1", "c1"⟩

theorem removeStorage_keyNotFound_cex :
    (RemoveStorage keyNotFoundAPI () (.ok cfgA) regManaged).1 = (false, none) ∧
    (RemoveStorage keyNotFoundAPI () (.ok cfgA) regManaged).2.2.1.config.accountName = "" ∧
    (RemoveStorage keyNotFoundAPI () (.ok cfgA) regManaged).2.2.1.config.container = "c1" ∧
    (RemoveStorage keyNotFoundAPI () (.ok cfgA) regManaged).2.2.1.specAzureContainer = "c1" ∧
    (RemoveStorage keyNotFoundAPI () (.ok cfgA) regManaged).2.2.1.statusAzureContainer = "c1" :=
  ⟨rfl, rfl, rfl, rfl, rfl⟩

/-- C2 (amended): during `RemoveStorage` with a non-empty recorded
container name, a not-found account-key fetch clears the recorded account
name (in the driver config and in the spec/status records) but leaves the
recorded container name in place, writes the single condition
(False, ContainerNotFound), and returns no error having issued only the
key-fetch operation (no container or account delete). -/
theorem removeStorage_keyNotFound {σ : Type} (api : AzureAPI σ) (st st' : σ)
    (cfg : AzCfg) (reg : RegState) (m : String)
    (hms : reg.specManagementState = managementStateManaged)
    (hacct : reg.config.accountName ≠ "")
    (hcont : reg.config.container ≠ "")
    (henv : api.getEnvironment reg.config.cloudName = .ok ())
    (hkey : api.getPrimaryKey st cfg.resourceGroup reg.config.accountName =
      (.error (.detailed 404 m), st')) :
    RemoveStorage api st (.ok cfg) reg =
      ((false, none), st', clearAccountFields reg,
        [.getKeys reg.config.accountName],
        [⟨.cFalse, reasonContainerNotFound,
          "Container has been already deleted: " ++
            ("failed to get keys for the storage account " ++
              reg.config.accountName ++ ": " ++ m)⟩]) := by
  have hmb : (reg.specManagementState != managementStateManaged) = false := by
    simpa using hms
  have hab : (reg.config.accountName == "") = false := by simpa using hacct
  have hcb : (reg.config.container != "") = true := by simpa using hcont
  simp [RemoveStorage, getAccountPrimaryKey, Err.message, clearAccountFields,
    hmb, hab, hcb, henv, hkey]

theorem removeStorage_keyNotFound_witness :
    regManaged.specManagementState = managementStateManaged ∧
    RemoveStorage keyNotFoundAPI () (.ok cfgA) regManaged =
      ((false, none), (), clearAccountFields regManaged,
        [.getKeys "acct1"],
        [⟨.cFalse, reasonContainerNotFound,
          "Container has been already deleted: " ++
            ("failed to get keys for the storage account " ++
              "acct1" ++ ": " ++ "storage account not found")⟩]) :=
  ⟨by decide,
    removeStorage_keyNotFound keyNotFoundAPI () () cfgA regManaged
      "storage account not found" (by decide) (by decide) (by decide) rfl rfl⟩

/-- C10: when the container delete succeeds but the account delete fails,
`RemoveStorage` returns the account-delete error with the container
fields already cleared and the ContainerDeleted condition already written
(followed by the AzureError condition), while the account name stays
recorded; none of the cleared fields is restored, so a later invocation
(any provider, any configuration with the same cloud lookup succeeding)
skips the container branch and issues only the account delete. -/
theorem removeStorage_acctDeleteFail {σ : Type} (api : AzureAPI σ) (st st1 st2 st3 : σ)
    (cfg : AzCfg) (reg : RegState) (key : String) (e : Err)
    (hms : reg.specManagementState = managementStateManaged)
    (hacct : reg.config.accountName ≠ "")
    (hcont : reg.config.container ≠ "")
    (henv : api.getEnvironment reg.config.cloudName = .ok ())
    (hkey : api.getPrimaryKey st cfg.resourceGroup reg.config.accountName = (.ok key, st1))
    (hdelc : api.deleteContainer st1 reg.config.accountName key reg.config.container =
      (.ok (), st2))
    (hdela : api.deleteAccount st2 cfg.resourceGroup reg.config.accountName =
      (.error e, st3)) :
    RemoveStorage api st (.ok cfg) reg =
      ((false, some e), st3, clearContainerFields reg,
        [.getKeys reg.config.accountName,
         .deleteContainer reg.config.accountName reg.config.container,
         .deleteAccount reg.config.accountName],
        [⟨.cFalse, reasonContainerDeleted, "Storage container has been deleted"⟩,
         ⟨.cFalse, reasonAzureError, "Unable to delete storage account: " ++ e.message⟩]) ∧
    (∀ (σ2 : Type) (api2 : AzureAPI σ2) (t : σ2) (cfg2 : AzCfg),
      api2.getEnvironment reg.config.cloudName = .ok () →
      (RemoveStorage api2 t (.ok cfg2) (clearContainerFields reg)).2.2.2.1 =
        [.deleteAccount reg.config.accountName]) := by
  have hmb : (reg.specManagementState != managementStateManaged) = false := by
    simpa using hms
  have hab : (reg.config.accountName == "") = false := by simpa using hacct
  have hcb : (reg.config.container != "") = true := by simpa using hcont
  constructor
  · simp [RemoveStorage, getAccountPrimaryKey, clearContainerFields,
      hmb, hab, hcb, henv, hkey, hdelc, hdela]
  · intro σ2 api2 t cfg2 henv2
    have hmb2 : ((clearContainerFields reg).specManagementState !=
        managementStateManaged) = false := by
      simp only [clearContainerFields]
      simpa using hms
    have hab2 : ((clearContainerFields reg).config.accountName == "") = false := by
      simp only [clearContainerFields]
      simpa using hacct
    have hcb2 : ((clearContainerFields reg).config.container != "") = false := by
      simp [clearContainerFields]
    rcases hda : api2.deleteAccount t cfg2.resourceGroup
        (clearContainerFields reg).config.accountName with ⟨r, t'⟩
    have hda' : api2.deleteAccount t cfg2.resourceGroup reg.config.accountName = (r, t') := by
      simpa [clearContainerFields] using hda
    cases r <;>
      simp [RemoveStorage, clearContainerFields, hmb2, hab2, hcb2, henv2, hda', hms, hacct]

/-- Like `okAPI` but the storage-account delete fails. -/
def acctDeleteFailAPI : AzureAPI Unit :=
  { okAPI with deleteAccount := fun st _ _ => (.error (.generic "boom"), st) }

theorem removeStorage_acctDeleteFail_witness :
    regManaged.config.container ≠ "" ∧
    RemoveStorage acctDeleteFailAPI () (.ok cfgA) regManaged =
      ((false, some (.generic "boom")), (), clearContainerFields regManaged,
        [.getKeys "acct1", .deleteContainer "acct1" "c1", .deleteAccount "acct1"],
        [⟨.cFalse, reasonContainerDeleted, "Storage container has been deleted"⟩,
         ⟨.cFalse, reasonAzureError,
          "Unable to delete storage account: " ++ Err.message (.generic "boom")⟩]) :=
  ⟨by decide,
    (removeStorage_acctDeleteFail acctDeleteFailAPI () () () () cfgA regManaged
      "key1" (.generic "boom") (by decide) (by decide) (by decide) rfl rfl rfl rfl).1⟩

theorem processUPI_conds_length (reg : RegState) : ((processUPI reg).2).length = 1 := by
  unfold processUPI
  split
  · rfl
  · split
    · rfl
    · rfl

theorem conditions_once_cex :
    (RemoveStorage okAPI () (.ok cfgA) regUnmanaged).2.2.2.2 = [] ∧
    ((RemoveStorage okAPI () (.ok cfgA) regManaged).2.2.2.2).length = 2 :=
  ⟨rfl, rfl⟩

/-- C3 (amended): `CreateStorage` and `StorageExists` write exactly one
condition update on every call; `RemoveStorage` writes none when the
management state is not Managed, and otherwise writes one or two (two
when the container branch completes and the account delete is reached). -/
theorem conditions_per_call {σ : Type} (api : AzureAPI σ) (st : σ)
    (cfgRes : Except Err AzCfg) (infraRes : Except Err Infra)
    (genAcct genPE : String) (genContainer : Except Err String) (reg : RegState) :
    (CreateStorage api st cfgRes infraRes genAcct genPE genContainer reg).conds.length = 1 ∧
    ((StorageExists api st cfgRes reg).2.2.2.2).length = 1 ∧
    (reg.specManagementState ≠ managementStateManaged →
      (RemoveStorage api st cfgRes reg).2.2.2.2 = []) ∧
    (reg.specManagementState = managementStateManaged →
      1 ≤ ((RemoveStorage api st cfgRes reg).2.2.2.2).length ∧
      ((RemoveStorage api st cfgRes reg).2.2.2.2).length ≤ 2) := by
  refine ⟨?_, ?_, ?_, ?_⟩
  · unfold CreateStorage
    rcases cfgRes with e | cfg
    · rfl
    · by_cases hk : (cfg.accountKey != "") = true
      · rcases hP : processUPI reg with ⟨r1, cnd⟩
        have hlen := processUPI_conds_length reg
        rw [hP] at hlen
        simpa [hk, hP] using hlen
      · have hk' : (cfg.accountKey != "") = false := by
          simpa using hk
        rcases infraRes with e | infra
        · simp [hk']
        · simp only [hk', Bool.false_eq_true, if_false]
          split
          · rfl
          · split
            · rfl
            · rfl
  · unfold StorageExists
    split
    · rfl
    · rcases cfgRes with e | cfg
      · rfl
      · rcases henv : api.getEnvironment reg.config.cloudName with e | u
        · simp [henv]
        · rcases hgk : getKey api st cfg reg.config with ⟨rk, st1, ops1⟩
          cases rk with
          | error e => simp [henv, hgk]
          | ok key =>
            rcases hce : containerExists api st1 reg.config.accountName key
                reg.config.container with ⟨rc, st2, ops2⟩
            cases rc with
            | error e => simp [henv, hgk, hce]
            | ok b => cases b <;> simp [henv, hgk, hce]
  · intro hm
    have hmb : (reg.specManagementState != managementStateManaged) = true := by
      simpa using hm
    simp [RemoveStorage, hmb]
  · intro hm
    have hmb : (reg.specManagementState != managementStateManaged) = false := by
      simpa using hm
    suffices hlen : ((RemoveStorage api st cfgRes reg).2.2.2.2).length = 1 ∨
        ((RemoveStorage api st cfgRes reg).2.2.2.2).length = 2 by
      rcases hlen with h | h <;> exact ⟨by omega, by omega⟩
    unfold RemoveStorage
    rw [if_neg (by simp [hmb])]
    by_cases hab : (reg.config.accountName == "") = true
    · simp [hab]
    · have hab' : (reg.config.accountName == "") = false := by simpa using hab
      rcases cfgRes with e | cfg
      · simp [hab']
      · rcases henv : api.getEnvironment reg.config.cloudName with e | u
        · simp [hab', henv]
        · by_cases hcb : (reg.config.container != "") = true
          · rcases hgk : getAccountPrimaryKey api st cfg.resourceGroup
                reg.config.accountName with ⟨rk, st1, ops1⟩
            cases rk with
            | error e =>
              cases e <;> simp [hab', henv, hcb, hgk]
            | ok key =>
              rcases hdc : api.deleteContainer st1 reg.config.accountName key
                  reg.config.container with ⟨rc, st2⟩
              cases rc with
              | error e => simp [hab', henv, hcb, hgk, hdc]
              | ok u2 =>
                rcases hda : api.deleteAccount st2 cfg.resourceGroup
                    reg.config.accountName with ⟨ra, st3⟩
                cases ra <;> simp [hab', henv, hcb, hgk, hdc, hda]
          · have hcb' : (reg.config.container != "") = false := by
              simpa using hcb
            rcases hda : api.deleteAccount st cfg.resourceGroup
                reg.config.accountName with ⟨ra, st3⟩
            cases ra <;> simp [hab', henv, hcb', hda]

theorem conditions_per_call_witness :
    (RemoveStorage okAPI () (.ok cfgA) regUnmanaged).2.2.2.2 = [] ∧
    (1 ≤ ((RemoveStorage okAPI () (.ok cfgA) regManaged).2.2.2.2).length ∧
      ((RemoveStorage okAPI () (.ok cfgA) regManaged).2.2.2.2).length ≤ 2) :=
  ⟨(conditions_per_call okAPI () (.ok cfgA) (.ok infraA) "gen1" "pe1" (.ok "genc")
      regUnmanaged).2.2.1 (by decide),
    (conditions_per_call okAPI () (.ok cfgA) (.ok infraA) "gen1" "pe1" (.ok "genc")
      regManaged).2.2.2 (by decide)⟩

/-- A concrete provider state: the set of existing accounts and of
existing (account, container) pairs. -/
structure PState where
  accounts : List String
  containers : List (String × String)
  deriving DecidableEq, Repr

/-- The ideal provider over `PState`: probes read the state, creations
extend it and always succeed, the key fetch 404s exactly on missing
accounts, and the container-properties lookup reports `ContainerNotFound`
exactly on missing containers. -/
def idealAPI : AzureAPI PState where
  getEnvironment := fun _ => .ok ()
  checkNameAvailability := fun st n => (.ok (!(st.accounts.contains n)), st)
  createAccount := fun st _ n _ _ => (.ok (), { st with accounts := n :: st.accounts })
  createPrivateEndpoint := fun st _ _ _ => (.ok (), st)
  createPrivateDNSZone := fun st _ => (.ok (), st)
  createRecordSet := fun st _ => (.ok (), st)
  createZoneGroup := fun st _ => (.ok (), st)
  createVNetLink := fun st _ => (.ok (), st)
  getPrimaryKey := fun st _ n =>
    if st.accounts.contains n then (.ok "primary-key", st)
    else (.error (.detailed 404 "account not found"), st)
  containerGetProps := fun st a _ c =>
    if st.containers.contains (a, c) then (.ok (), st)
    else (.error (.storageCode "ContainerNotFound" "container not found"), st)
  createContainer := fun st a _ c =>
    (.ok (), { st with containers := (a, c) :: st.containers })
  deleteContainer := fun st a _ c =>
    (.ok (), { st with containers := st.containers.erase (a, c) })
  deleteAccount := fun st _ n => (.ok (), { st with accounts := st.accounts.erase n })

/-- The provisioning path of `CreateStorage` against the ideal provider:
`assureStorageAccount`, persist the account name into the config, then
`assureContainer`, persist the container name; returns the updated config
and the two creation flags. -/
def provisionPath (st : PState) (cfg : AzCfg) (dcfg : DriverCfg)
    (infra : Infra) (genAcct genPE : String) (genContainer : Except Err String) :
    (Except Err (DriverCfg × Bool × Bool)) × PState :=
  match assureStorageAccount idealAPI st cfg dcfg infra genAcct genPE with
  | (.error e, st1, _) => (.error e, st1)
  | (.ok (accountName, created1), st1, _) =>
    let dcfg1 := { dcfg with accountName := accountName }
    match assureContainer idealAPI st1 cfg dcfg1 genContainer with
    | (.error e, st2, _) => (.error e, st2)
    | (.ok (containerName, created2), st2, _) =>
      (.ok ({ dcfg1 with container := containerName }, created1, created2), st2)

theorem networkChain_ideal (st : PState) (accountName endpointName : String)
    (tags : List ResourceTag) :
    networkChain idealAPI st accountName endpointName tags =
      (.ok (), st, chainOpList accountName endpointName) := rfl

theorem idealAPI_env (s : String) : idealAPI.getEnvironment s = .ok () := rfl

theorem idealAPI_check (st : PState) (n : String) :
    idealAPI.checkNameAvailability st n = (.ok (!(st.accounts.contains n)), st) := rfl

theorem idealAPI_createAccount (st : PState) (rg n r : String) (t : List ResourceTag) :
    idealAPI.createAccount st rg n r t =
      (.ok (), { st with accounts := n :: st.accounts }) := rfl

theorem idealAPI_getKey (st : PState) (rg n : String) :
    idealAPI.getPrimaryKey st rg n =
      if st.accounts.contains n then (.ok "primary-key", st)
      else (.error (.detailed 404 "account not found"), st) := rfl

theorem idealAPI_props (st : PState) (a k c : String) :
    idealAPI.containerGetProps st a k c =
      if st.containers.contains (a, c) then (.ok (), st)
      else (.error (.storageCode "ContainerNotFound" "container not found"), st) := rfl

theorem idealAPI_createContainer (st : PState) (a k c : String) :
    idealAPI.createContainer st a k c =
      (.ok (), { st with containers := (a, c) :: st.containers }) := rfl

theorem assureSA_ideal_gen_fresh (st : PState) (cfg : AzCfg) (dcfg : DriverCfg)
    (infra : Infra) (genAcct genPE : String)
    (hab : (dcfg.accountName == "") = true)
    (hct : st.accounts.contains genAcct = false) :
    assureStorageAccount idealAPI st cfg dcfg infra genAcct genPE =
      (.ok (genAcct, true), { st with accounts := genAcct :: st.accounts },
        [Op.checkName genAcct, Op.createAccount genAcct] ++
          chainOpList genAcct genPE) := by
  have hm : genAcct ∉ st.accounts := by simpa using hct
  simp [assureStorageAccount, idealAPI_env, idealAPI_check, idealAPI_createAccount,
    networkChain_ideal, hab, hct, hm]

theorem assureSA_ideal_user_exists (st : PState) (cfg : AzCfg) (dcfg : DriverCfg)
    (infra : Infra) (genAcct genPE : String)
    (hab : (dcfg.accountName == "") = false)
    (hct : st.accounts.contains dcfg.accountName = true) :
    assureStorageAccount idealAPI st cfg dcfg infra genAcct genPE =
      (.ok (dcfg.accountName, false), st, [Op.checkName dcfg.accountName]) := by
  have hm : dcfg.accountName ∈ st.accounts := by simpa using hct
  simp [assureStorageAccount, idealAPI_env, idealAPI_check, hab, hct, hm]

theorem assureSA_ideal_user_fresh (st : PState) (cfg : AzCfg) (dcfg : DriverCfg)
    (infra : Infra) (genAcct genPE : String)
    (hab : (dcfg.accountName == "") = false)
    (hct : st.accounts.contains dcfg.accountName = false) :
    assureStorageAccount idealAPI st cfg dcfg infra genAcct genPE =
      (.ok (dcfg.accountName, true),
        { st with accounts := dcfg.accountName :: st.accounts },
        [Op.checkName dcfg.accountName, Op.createAccount dcfg.accountName] ++
          chainOpList dcfg.accountName genPE) := by
  have hm : dcfg.accountName ∉ st.accounts := by simpa using hct
  simp [assureStorageAccount, idealAPI_env, idealAPI_check, idealAPI_createAccount,
    networkChain_ideal, hab, hct, hm]

theorem assureSA_ideal_gen_collision (st : PState) (cfg : AzCfg) (dcfg : DriverCfg)
    (infra : Infra) (genAcct genPE : String)
    (hab : (dcfg.accountName == "") = true)
    (hct : st.accounts.contains genAcct = true) :
    assureStorageAccount idealAPI st cfg dcfg infra genAcct genPE =
      (.error (.generic "create storage account failed, name not available"), st,
        [Op.checkName genAcct]) := by
  have hm : genAcct ∈ st.accounts := by simpa using hct
  simp [assureStorageAccount, idealAPI_env, idealAPI_check, hab, hct, hm]

theorem getAccountPrimaryKey_ideal_ok (st : PState) (rg n : String)
    (hacc : st.accounts.contains n = true) :
    getAccountPrimaryKey idealAPI st rg n = (.ok "primary-key", st, [.getKeys n]) := by
  have hm : n ∈ st.accounts := by simpa using hacc
  simp [getAccountPrimaryKey, idealAPI_getKey, hacc, hm]

theorem assureC_ideal_gen (st : PState) (cfg : AzCfg) (dcfg : DriverCfg)
    (c : String)
    (hacc : st.accounts.contains dcfg.accountName = true)
    (hcb : (dcfg.container == "") = true) :
    assureContainer idealAPI st cfg dcfg (.ok c) =
      (.ok (c, true), { st with containers := (dcfg.accountName, c) :: st.containers },
        [.getKeys dcfg.accountName, .createContainer dcfg.accountName c]) := by
  simp [assureContainer, idealAPI_env, getAccountPrimaryKey_ideal_ok st cfg.resourceGroup
    dcfg.accountName hacc, idealAPI_createContainer, hcb]

theorem assureC_ideal_exists (st : PState) (cfg : AzCfg) (dcfg : DriverCfg)
    (genContainer : Except Err String)
    (hacc : st.accounts.contains dcfg.accountName = true)
    (hane : (dcfg.accountName == "") = false)
    (hcb : (dcfg.container == "") = false)
    (hpair : st.containers.contains (dcfg.accountName, dcfg.container) = true) :
    assureContainer idealAPI st cfg dcfg genContainer =
      (.ok (dcfg.container, false), st,
        [.getKeys dcfg.accountName, .containerGet dcfg.accountName dcfg.container]) := by
  have hm : (dcfg.accountName, dcfg.container) ∈ st.containers := by simpa using hpair
  simp [assureContainer, idealAPI_env, getAccountPrimaryKey_ideal_ok st cfg.resourceGroup
    dcfg.accountName hacc, containerExists, idealAPI_props, hane, hcb, hpair, hm]

theorem assureC_ideal_missing (st : PState) (cfg : AzCfg) (dcfg : DriverCfg)
    (genContainer : Except Err String)
    (hacc : st.accounts.contains dcfg.accountName = true)
    (hane : (dcfg.accountName == "") = false)
    (hcb : (dcfg.container == "") = false)
    (hpair : st.containers.contains (dcfg.accountName, dcfg.container) = false) :
    assureContainer idealAPI st cfg dcfg genContainer =
      (.ok (dcfg.container, true),
        { st with containers := (dcfg.accountName, dcfg.container) :: st.containers },
        [.getKeys dcfg.accountName, .containerGet dcfg.accountName dcfg.container,
          .createContainer dcfg.accountName dcfg.container]) := by
  have hm : (dcfg.accountName, dcfg.container) ∉ st.containers := by simpa using hpair
  simp [assureContainer, idealAPI_env, getAccountPrimaryKey_ideal_ok st cfg.resourceGroup
    dcfg.accountName hacc, containerExists, idealAPI_props, idealAPI_createContainer,
    hane, hcb, hpair, hm, isContainerNotFoundErr]

theorem assureSA_ideal_ok (st : PState) (cfg : AzCfg) (dcfg : DriverCfg)
    (infra : Infra) (genAcct genPE name : String) (created : Bool)
    (st1 : PState) (ops : List Op)
    (hga : genAcct ≠ "")
    (h : assureStorageAccount idealAPI st cfg dcfg infra genAcct genPE =
      (.ok (name, created), st1, ops)) :
    name ≠ "" ∧ st1.accounts.contains name = true ∧ st1.containers = st.containers := by
  by_cases hab : (dcfg.accountName == "") = true
  · by_cases hct : st.accounts.contains genAcct = true
    · rw [assureSA_ideal_gen_collision st cfg dcfg infra genAcct genPE hab hct] at h
      exact absurd (congrArg (fun t => t.1) h) (by simp)
    · have hct' : st.accounts.contains genAcct = false := by simpa using hct
      rw [assureSA_ideal_gen_fresh st cfg dcfg infra genAcct genPE hab hct'] at h
      have h1 := congrArg (fun t => t.1) h
      have h2 := congrArg (fun t => t.2.1) h
      simp only at h1 h2
      have h1' := Except.ok.inj h1
      have hname : genAcct = name := congrArg Prod.fst h1'
      subst hname
      refine ⟨hga, ?_, ?_⟩
      · rw [← h2]
        simp
      · rw [← h2]
  · have hab' : (dcfg.accountName == "") = false := by simpa using hab
    have hane : dcfg.accountName ≠ "" := by simpa using hab'
    by_cases hct : st.accounts.contains dcfg.accountName = true
    · rw [assureSA_ideal_user_exists st cfg dcfg infra genAcct genPE hab' hct] at h
      have h1 := congrArg (fun t => t.1) h
      have h2 := congrArg (fun t => t.2.1) h
      simp only at h1 h2
      have h1' := Except.ok.inj h1
      have hname : dcfg.accountName = name := congrArg Prod.fst h1'
      subst hname
      exact ⟨hane, by rw [← h2]; exact hct, by rw [← h2]⟩
    · have hct' : st.accounts.contains dcfg.accountName = false := by simpa using hct
      rw [assureSA_ideal_user_fresh st cfg dcfg infra genAcct genPE hab' hct'] at h
      have h1 := congrArg (fun t => t.1) h
      have h2 := congrArg (fun t => t.2.1) h
      simp only at h1 h2
      have h1' := Except.ok.inj h1
      have hname : dcfg.accountName = name := congrArg Prod.fst h1'
      subst hname
      refine ⟨hane, ?_, ?_⟩
      · rw [← h2]
        simp
      · rw [← h2]

theorem assureC_ideal_ok (st : PState) (cfg : AzCfg) (dcfg : DriverCfg)
    (genContainer : Except Err String) (cname : String) (created : Bool)
    (st1 : PState) (ops : List Op)
    (hgc : ∀ c, genContainer = .ok c → c ≠ "")
    (hane : dcfg.accountName ≠ "")
    (hacc : st.accounts.contains dcfg.accountName = true)
    (h : assureContainer idealAPI st cfg dcfg genContainer = (.ok (cname, created), st1, ops)) :
    cname ≠ "" ∧ st1.containers.contains (dcfg.accountName, cname) = true ∧
      st1.accounts = st.accounts := by
  have hane' : (dcfg.accountName == "") = false := by simpa using hane
  by_cases hcb : (dcfg.container == "") = true
  · rcases hgencont : genContainer with e | c
    · rw [hgencont] at h
      simp [assureContainer, idealAPI_env, getAccountPrimaryKey_ideal_ok st cfg.resourceGroup
        dcfg.accountName hacc, hcb] at h
    · rw [hgencont] at h
      rw [assureC_ideal_gen st cfg dcfg c hacc hcb] at h
      have h1 := congrArg (fun t => t.1) h
      have h2 := congrArg (fun t => t.2.1) h
      simp only at h1 h2
      have h1' := Except.ok.inj h1
      have hname : c = cname := congrArg Prod.fst h1'
      subst hname
      refine ⟨hgc c hgencont, ?_, ?_⟩
      · rw [← h2]
        simp
      · rw [← h2]
  · have hcb' : (dcfg.container == "") = false := by simpa using hcb
    have hcne : dcfg.container ≠ "" := by simpa using hcb'
    by_cases hpair : st.containers.contains (dcfg.accountName, dcfg.container) = true
    · rw [assureC_ideal_exists st cfg dcfg genContainer hacc hane' hcb' hpair] at h
      have h1 := congrArg (fun t => t.1) h
      have h2 := congrArg (fun t => t.2.1) h
      simp only at h1 h2
      have h1' := Except.ok.inj h1
      have hname : dcfg.container = cname := congrArg Prod.fst h1'
      subst hname
      exact ⟨hcne, by rw [← h2]; exact hpair, by rw [← h2]⟩
    · have hpair' : st.containers.contains (dcfg.accountName, dcfg.container) = false := by
        simpa using hpair
      rw [assureC_ideal_missing st cfg dcfg genContainer hacc hane' hcb' hpair'] at h
      have h1 := congrArg (fun t => t.1) h
      have h2 := congrArg (fun t => t.2.1) h
      simp only at h1 h2
      have h1' := Except.ok.inj h1
      have hname : dcfg.container = cname := congrArg Prod.fst h1'
      subst hname
      refine ⟨hcne, ?_, ?_⟩
      · rw [← h2]
        simp
      · rw [← h2]

/-- C8: if one run of the provisioning path (`assureStorageAccount` then
`assureContainer`, with the resolved names persisted into the config as
`CreateStorage` does) succeeds against the ideal provider, then a second
run from the resulting provider state and config succeeds with
`created = false` from both calls and leaves the provider state and the
config unchanged.  The generated names are assumed non-empty, which the
naming strategy guarantees (`generateAccountName_valid`). -/
theorem provision_idempotent
    (st : PState) (cfg : AzCfg) (dcfg : DriverCfg) (infra : Infra)
    (genAcct genPE genAcct2 genPE2 : String)
    (genContainer genContainer2 : Except Err String)
    (dcfg' : DriverCfg) (c1 c2 : Bool) (st' : PState)
    (hga : genAcct ≠ "")
    (hgc : ∀ c, genContainer = .ok c → c ≠ "")
    (hrun : provisionPath st cfg dcfg infra genAcct genPE genContainer =
      (.ok (dcfg', c1, c2), st')) :
    provisionPath st' cfg dcfg' infra genAcct2 genPE2 genContainer2 =
      (.ok (dcfg', false, false), st') := by
  obtain ⟨da, dc, dcl⟩ := dcfg
  unfold provisionPath at hrun
  rcases hA : assureStorageAccount idealAPI st cfg ⟨da, dc, dcl⟩ infra genAcct genPE
    with ⟨ra, stA, opsA⟩
  rw [hA] at hrun
  cases ra with
  | error e => simp at hrun
  | ok p =>
    rcases p with ⟨name, created1⟩
    simp only at hrun
    rcases hC : assureContainer idealAPI stA cfg ⟨name, dc, dcl⟩ genContainer
      with ⟨rc, stC, opsC⟩
    rw [hC] at hrun
    cases rc with
    | error e => simp at hrun
    | ok q =>
      rcases q with ⟨cname, created2⟩
      simp only at hrun
      have hd : (⟨name, cname, dcl⟩ : DriverCfg) = dcfg' := by
        have h1 := congrArg (fun t => t.1) hrun
        simp only at h1
        exact congrArg Prod.fst (Except.ok.inj h1)
      have hst : stC = st' := congrArg (fun t => t.2) hrun
      obtain ⟨hname_ne, haccA, hcontA⟩ :=
        assureSA_ideal_ok st cfg ⟨da, dc, dcl⟩ infra genAcct genPE name created1
          stA opsA hga hA
      obtain ⟨hcname_ne, hpairC, haccC⟩ :=
        assureC_ideal_ok stA cfg ⟨name, dc, dcl⟩ genContainer cname created2
          stC opsC hgc hname_ne haccA hC
      subst hd
      subst hst
      have hab2 : ((⟨name, cname, dcl⟩ : DriverCfg).accountName == "") = false := by
        simpa using hname_ne
      have hacc2 : stC.accounts.contains name = true := by
        rw [haccC]
        exact haccA
      have hcb2 : ((⟨name, cname, dcl⟩ : DriverCfg).container == "") = false := by
        simpa using hcname_ne
      unfold provisionPath
      rw [assureSA_ideal_user_exists stC cfg ⟨name, cname, dcl⟩ infra genAcct2 genPE2
        hab2 hacc2]
      simp only
      rw [assureC_ideal_exists stC cfg ⟨name, cname, dcl⟩ genContainer2
        hacc2 hab2 hcb2 hpairC]

theorem generateAccountName_valid_witness :
    3 ≤ (generateAccountName "my-infra-1" "abc12").length ∧
    (generateAccountName "my-infra-1" "abc12").length ≤ 24 ∧
    (∀ c ∈ (generateAccountName "my-infra-1" "abc12").data, isLowerAlnumChar c = true) :=
  generateAccountName_valid "my-infra-1" "abc12" (by decide) (by decide)

theorem provision_idempotent_witness :
    provisionPath ⟨["genacct"], [("genacct", "genc")]⟩ cfgA ⟨"genacct", "genc", ""⟩
        infraA "gen2" "pe2" (.ok "genc2") =
      (.ok (⟨"genacct", "genc", ""⟩, false, false),
        ⟨["genacct"], [("genacct", "genc")]⟩) :=
  provision_idempotent ⟨[], []⟩ cfgA ⟨"", "", ""⟩ infraA "genacct" "pe1" "gen2" "pe2"
    (.ok "genc") (.ok "genc2") ⟨"genacct", "genc", ""⟩ true true
    ⟨["genacct"], [("genacct", "genc")]⟩ (by decide)
    (fun c h => by cases h; decide) rfl
